import Mathlib

/-!
Verification of the commit-message generator in `src/extension.ts`
(class `CommitMessageGenerator` and its helpers).

The TypeScript source is shallowly embedded below:

* JavaScript string truthiness (`x || default`, `cond ? a : b` on strings)
  is modelled explicitly with emptiness tests.
* `String.prototype.trim` is modelled by `jsTrim`, trimming the
  ECMAScript whitespace set from both ends.
* The two `git` subprocess invocations and the completion-API call are
  modelled as inputs of an environment record `GenEnv`; a failing
  subprocess or API call is an `Except.error` carrying its message, so
  `await` points that can throw become monadic binds in `Except String`.
* The `try`/`catch` wrapper of `generateCommitMessage` becomes an
  explicit match that re-wraps every inner error message.
-/

/-- Whitespace predicate of ECMAScript `String.prototype.trim`
(WhiteSpace plus LineTerminator code points). -/
def isJsWhitespace (c : Char) : Bool :=
  c = '\t' || c = '\n' || c = '\x0B' || c = '\x0C' || c = '\r' || c = ' ' ||
  c = '\u00A0' || c = '\u1680' ||
  ('\u2000' ≤ c && c ≤ '\u200A') ||
  c = '\u2028' || c = '\u2029' || c = '\u202F' || c = '\u205F' ||
  c = '\u3000' || c = '\uFEFF'

/-- Model of JavaScript `s.trim()`: drop ECMAScript whitespace from both ends. -/
def jsTrim (s : String) : String :=
  String.mk (((s.data.dropWhile isJsWhitespace).reverse.dropWhile isJsWhitespace).reverse)

/-- Result of the diff-collection step: the chosen diff text and whether it
came from the staged (`git diff --cached`) command. In the source these are
the local variables `diff` and `isStaged` of `generateCommitMessage`. -/
structure DiffResult where
  text : String
  staged : Bool
deriving Repr, DecidableEq

/-- Diff collection, lines 42-54 of `extension.ts`.

`stagedResult` is the outcome of running `git diff --cached` via execAsync
(`.ok stdout` on success, `.error msg` when the process fails) and
`unstagedResult` the outcome of running `git diff`.
The source runs the staged command, falls back to the unstaged command
when the trimmed staged output is empty, and throws
`No changes found (staged or unstaged)` when the chosen output is still
empty after trimming. -/
def fetchDiff (stagedResult unstagedResult : Except String String) :
    Except String DiffResult := do
  let diff ← stagedResult
  if (jsTrim diff).isEmpty then do
    let diff2 ← unstagedResult
    if (jsTrim diff2).isEmpty then
      Except.error "No changes found (staged or unstaged)"
    else
      pure { text := diff2, staged := false }
  else
    pure { text := diff, staged := true }

/-- Whether the control flow of lines 42-50 reaches the
`git diff` subprocess call: only when the staged command
succeeded and its trimmed stdout was empty. -/
def runsUnstagedCmd (stagedResult : Except String String) : Bool :=
  match stagedResult with
  | Except.ok diff => (jsTrim diff).isEmpty
  | Except.error _ => false

/-- Format-rule selector, method `getFormatRules` (lines 102-130).
The `switch` on the string `commitFormat` is the if-chain below; the
JavaScript truthiness test `customTemplate ?` is the emptiness test. -/
def getFormatRules (commitFormat : String) (customTemplate : String) : String :=
  if commitFormat = "conventional" then
    "Rules:\n- Use conventional commit format\n- Keep under 72 characters for the first line\n- Be specific and clear\n- Common types: feat, fix, docs, style, refactor, test, chore"
  else if commitFormat = "angular" then
    "Rules:\n- Use Angular commit format: <type>(<scope>): <description>\n- Types: build, ci, docs, feat, fix, perf, refactor, style, test\n- Keep under 100 characters for the first line\n- Use imperative mood"
  else if commitFormat = "custom" then
    (if customTemplate.isEmpty then
      "Rules:\n- Use conventional commit format\n- Keep under 72 characters for the first line\n- Be specific and clear"
    else
      "Rules:\n- Follow this custom template: " ++ customTemplate ++ "\n- Be specific and clear")
  else
    "Rules:\n- Use conventional commit format\n- Keep under 72 characters for the first line\n- Be specific and clear\n- Common types: feat, fix, docs, style, refactor, test, chore"

/-- Custom-rules block, line 60:
the guard `customRules.length > 0` choosing between the rendered block
(each rule as a bullet) and the empty string. -/
def customRulesText (customRules : List String) : String :=
  if customRules.length > 0 then
    "\n\nAdditional custom rules:\n" ++
      String.intercalate "\n" (customRules.map (fun rule => "- " ++ rule))
  else ""

/-- User message template, lines 68-75: the template literal interpolating
`fileType`, `diff`, `formatRules` and `customRulesText`. -/
def buildUserMessage (fileType diff formatRules crText : String) : String :=
  "write me a commit message for the " ++ fileType ++
  ", do not commit\n\nGit diff:\n" ++ diff ++ "\n\n" ++ formatRules ++ crText ++
  "\n- Do not wrap the response in code blocks or backticks\n- Return plain text only"

/-- JavaScript `v || d` on an optional string configuration value:
`undefined` and the empty string are falsy. Used by lines 33, 36, 37. -/
def orDefaultString (v : Option String) (d : String) : String :=
  match v with
  | none => d
  | some s => if s.isEmpty then d else s

/-- JavaScript `v || d` on an optional numeric configuration value:
`undefined` and `0` are falsy. Used by line 34. -/
def orDefaultInt (v : Option Int) (d : Int) : Int :=
  match v with
  | none => d
  | some n => if n = 0 then d else n

/-- JavaScript `v || []` on an optional array configuration value:
only `undefined` is falsy, an array (even empty) is truthy. Line 35. -/
def orEmptyList (v : Option (List String)) : List String :=
  match v with
  | none => []
  | some l => l

/-- Options object passed to the `Anthropic` constructor. -/
structure AnthropicOptions where
  baseURL : Option String
  authToken : Option String
deriving Repr, DecidableEq

/-- Constructor of `CommitMessageGenerator`, lines 18-26: a field is set
only when the configured value is truthy (present and non-empty). -/
def mkAnthropicOptions (baseUrl authToken : Option String) : AnthropicOptions :=
  { baseURL :=
      match baseUrl with
      | some s => if s.isEmpty then none else some s
      | none => none,
    authToken :=
      match authToken with
      | some s => if s.isEmpty then none else some s
      | none => none }

/-- One entry of the `system` array of the API request (lines 77-92). -/
structure SystemBlock where
  type : String
  text : String
  cacheControlType : String
deriving Repr, DecidableEq

/-- One entry of the `messages` array of the API request. -/
structure ChatMessage where
  role : String
  content : String
deriving Repr, DecidableEq

/-- Fixed two-part system preamble, lines 77-92. -/
def systemPreamble : List SystemBlock :=
  [{ type := "text",
     text := "You are Claude Code, Anthropic\x27s official CLI for Claude.",
     cacheControlType := "ephemeral" },
   { type := "text",
     text := "\nYou are an interactive CLI tool that helps users with software engineering tasks.",
     cacheControlType := "ephemeral" }]

/-- The request passed to `anthropic.messages.create` (lines 63-93). -/
structure ApiRequest where
  model : String
  max_tokens : Int
  messages : List ChatMessage
  system : List SystemBlock
deriving Repr, DecidableEq

/-- One content block of the API response. The source inspects `block.type`
and, on the first block whose type is `text`, reads `block.text`. -/
structure RespBlock where
  type : String
  text : String
deriving Repr, DecidableEq

/-- Response extraction, lines 95-96:
the find over `response.content` of the first block whose `type` field
equals `text`, returning the found text or the literal fallback string. -/
def extractMessage (content : List RespBlock) : String :=
  match content.find? (fun block => block.type == "text") with
  | some textContent => textContent.text
  | none => "Unable to generate commit message"

/-- Environment of one `generateCommitMessage` call: the configuration
values as read (`none` = option not set), the outcomes of the two git
subprocesses, and the completion API as a function from the request to
its outcome. -/
structure GenEnv where
  configModel : Option String
  configMaxTokens : Option Int
  configCustomRules : Option (List String)
  configCommitFormat : Option String
  configCustomTemplate : Option String
  stagedDiff : Except String String
  unstagedDiff : Except String String
  apiResponse : ApiRequest → Except String (List RespBlock)

/-- Steps of `generateCommitMessage` up to and including building the
request of lines 63-93: configuration resolution (lines 33-37), diff
collection (lines 42-54), `fileType` (line 56), format rules and
custom-rules block (lines 59-60), and the message template (lines 66-76). -/
def buildRequest (env : GenEnv) : Except String ApiRequest := do
  let model := orDefaultString env.configModel "claude-4-sonnet"
  let maxTokens := orDefaultInt env.configMaxTokens 200
  let customRules := orEmptyList env.configCustomRules
  let commitFormat := orDefaultString env.configCommitFormat "conventional"
  let customTemplate := orDefaultString env.configCustomTemplate ""
  let dr ← fetchDiff env.stagedDiff env.unstagedDiff
  let fileType := if dr.staged then "staged files" else "changed files"
  let formatRules := getFormatRules commitFormat customTemplate
  let crText := customRulesText customRules
  pure { model := model,
         max_tokens := maxTokens,
         messages := [{ role := "user",
                        content := buildUserMessage fileType dr.text formatRules crText }],
         system := systemPreamble }

/-- Body of the `try` block of `generateCommitMessage` (lines 30-96):
build the request, await the completion API, extract the text. -/
def generateCommitMessageBody (env : GenEnv) : Except String String := do
  let req ← buildRequest env
  let content ← env.apiResponse req
  pure (extractMessage content)

/-- Method `generateCommitMessage` (lines 29-100): the `catch` of lines
97-99 re-wraps any inner error message behind a fixed prefix. -/
def generateCommitMessage (env : GenEnv) : Except String String :=
  match generateCommitMessageBody env with
  | Except.ok s => Except.ok s
  | Except.error e => Except.error ("Failed to generate commit message: " ++ e)

/-- Observation of the pipeline: the content of the single user message of
the request that `generateCommitMessage` sends to the completion API. -/
def sentUserMessage (env : GenEnv) : Except String String :=
  (buildRequest env).map (fun req => (req.messages.map ChatMessage.content).headD "")

/-- First line of a string: the characters before the first newline. -/
def firstLine (s : String) : String :=
  String.mk (s.data.takeWhile (fun c => c != '\n'))

set_option maxRecDepth 20000

theorem fetchDiff_staged (s : String) (u : Except String String)
    (h : (jsTrim s).isEmpty = false) :
    fetchDiff (Except.ok s) u = Except.ok { text := s, staged := true } := by
  simp [fetchDiff, Bind.bind, Except.bind, Pure.pure, Except.pure, h]

theorem fetchDiff_fallback (s u : String)
    (hs : (jsTrim s).isEmpty = true) (hu : (jsTrim u).isEmpty = false) :
    fetchDiff (Except.ok s) (Except.ok u) = Except.ok { text := u, staged := false } := by
  simp [fetchDiff, Bind.bind, Except.bind, Pure.pure, Except.pure, hs, hu]

theorem fetchDiff_noChanges (s u : String)
    (hs : (jsTrim s).isEmpty = true) (hu : (jsTrim u).isEmpty = true) :
    fetchDiff (Except.ok s) (Except.ok u) =
      Except.error "No changes found (staged or unstaged)" := by
  simp [fetchDiff, Bind.bind, Except.bind, hs, hu]

/-- C1: the diff-collection step of generateCommitMessage, for any pair of
subprocess outputs: a staged output that is non-empty after trimming is used
with staged = true and the unstaged command is never run; otherwise a
non-empty-after-trimming unstaged output is used with staged = false;
otherwise the step fails with the NoChangesError message
`No changes found (staged or unstaged)`. -/
theorem diffCollection_spec (s u : String) :
    ((jsTrim s).isEmpty = false →
      fetchDiff (Except.ok s) (Except.ok u) = Except.ok { text := s, staged := true } ∧
      runsUnstagedCmd (Except.ok s) = false) ∧
    ((jsTrim s).isEmpty = true → (jsTrim u).isEmpty = false →
      fetchDiff (Except.ok s) (Except.ok u) = Except.ok { text := u, staged := false }) ∧
    ((jsTrim s).isEmpty = true → (jsTrim u).isEmpty = true →
      fetchDiff (Except.ok s) (Except.ok u) =
        Except.error "No changes found (staged or unstaged)") := by
  refine ⟨fun h => ⟨fetchDiff_staged s (Except.ok u) h, ?_⟩,
          fun hs hu => fetchDiff_fallback s u hs hu,
          fun hs hu => fetchDiff_noChanges s u hs hu⟩
  simp [runsUnstagedCmd, h]

theorem diffCollection_spec_witness :
    (fetchDiff (Except.ok " x ") (Except.ok "") = Except.ok { text := " x ", staged := true } ∧
      runsUnstagedCmd (Except.ok " x ") = false) ∧
    fetchDiff (Except.ok " \t") (Except.ok "y") = Except.ok { text := "y", staged := false } ∧
    fetchDiff (Except.ok "") (Except.ok " \n ") =
      Except.error "No changes found (staged or unstaged)" :=
  ⟨(diffCollection_spec " x " "").1 (by decide),
   (diffCollection_spec " \t" "y").2.1 (by decide) (by decide),
   (diffCollection_spec "" " \n ").2.2 (by decide) (by decide)⟩

/-- C2 counterexample: with commitFormat = custom and an empty customTemplate,
getFormatRules does NOT return the same string as for conventional — the
fallback block lacks the final `Common types` line of the conventional block. -/
theorem customEmpty_ne_conventional :
    getFormatRules "custom" "" ≠ getFormatRules "conventional" "" := by decide

/-- C2 amended: getFormatRules of custom with an empty customTemplate falls
back to a truncated conventional block — the conventional block without its
final `- Common types: ...` line; appending that line yields exactly
getFormatRules conventional. -/
theorem customEmpty_truncated_conventional :
    getFormatRules "custom" "" ++
        "\n- Common types: feat, fix, docs, style, refactor, test, chore" =
      getFormatRules "conventional" "" ∧
    getFormatRules "custom" "" =
      "Rules:\n- Use conventional commit format\n- Keep under 72 characters for the first line\n- Be specific and clear" := by
  constructor <;> decide

/-- C5: for every commitFormat value outside conventional, angular and
custom, and every customTemplate, getFormatRules resolves through the
default branch to the same string as for conventional, never to an error. -/
theorem formatRules_default (x t : String)
    (h1 : x ≠ "conventional") (h2 : x ≠ "angular") (h3 : x ≠ "custom") :
    getFormatRules x t = getFormatRules "conventional" t := by
  simp [getFormatRules, h1, h2, h3]

theorem formatRules_default_witness :
    getFormatRules "gitmoji" "tmpl" = getFormatRules "conventional" "tmpl" :=
  formatRules_default "gitmoji" "tmpl" (by decide) (by decide) (by decide)

/-- C6: the angular rule block is a constant string that does not depend on
the customTemplate argument; getFormatRules is a pure Lean function, so it
has no side effects by construction. -/
theorem formatRules_angular_const (t1 t2 : String) :
    getFormatRules "angular" t1 =
      "Rules:\n- Use Angular commit format: <type>(<scope>): <description>\n- Types: build, ci, docs, feat, fix, perf, refactor, style, test\n- Keep under 100 characters for the first line\n- Use imperative mood" ∧
    getFormatRules "angular" t1 = getFormatRules "angular" t2 := by
  constructor <;> simp [getFormatRules]

/-- C9: configuration defaults are applied for every falsy configured value,
not only for absent options: an empty configured model resolves to
claude-4-sonnet, a configured maxTokens of 0 resolves to 200, empty
customRules, commitFormat and customTemplate resolve to their defaults, and
an empty-string baseUrl or authToken is omitted from the client options. -/
theorem config_truthiness_defaults :
    orDefaultString (some "") "claude-4-sonnet" = "claude-4-sonnet" ∧
    orDefaultInt (some 0) 200 = 200 ∧
    orEmptyList (some []) = ([] : List String) ∧
    orDefaultString (some "") "conventional" = "conventional" ∧
    orDefaultString (some "") "" = "" ∧
    mkAnthropicOptions (some "") (some "") = { baseURL := none, authToken := none } ∧
    (∀ d : String, orDefaultString (some "") d = d) ∧
    (∀ d : Int, orDefaultInt (some 0) d = d) := by
  refine ⟨by decide, by decide, rfl, by decide, by decide, by decide,
          fun d => rfl, fun d => by simp [orDefaultInt]⟩

theorem takeWhile_append_of_ex {α : Type} (p : α → Bool) (l₁ l₂ : List α)
    (h : ∃ a ∈ l₁, p a = false) :
    (l₁ ++ l₂).takeWhile p = l₁.takeWhile p := by
  induction l₁ with
  | nil =>
    rcases h with ⟨a, ha, _⟩
    exact absurd ha (List.not_mem_nil a)
  | cons x xs ih =>
    rcases h with ⟨a, ha, hpa⟩
    by_cases hx : p x
    · rcases List.mem_cons.mp ha with rfl | ha2
      · exact absurd hx (by simp [hpa])
      · simp [List.takeWhile_cons, hx, ih ⟨a, ha2, hpa⟩]
    · simp [List.takeWhile_cons, hx]

theorem firstLine_append_of_newline (a b : String) (h : '\n' ∈ a.data) :
    firstLine (a ++ b) = firstLine a := by
  unfold firstLine
  rw [String.data_append, takeWhile_append_of_ex]
  exact ⟨'\n', h, by decide⟩

theorem buildUserMessage_contains_diff (ft d fr crText : String) :
    ∃ p q, buildUserMessage ft d fr crText = p ++ d ++ q := by
  refine ⟨"write me a commit message for the " ++ ft ++ ", do not commit\n\nGit diff:\n",
          "\n\n" ++ fr ++ crText ++
            "\n- Do not wrap the response in code blocks or backticks\n- Return plain text only",
          ?_⟩
  simp only [buildUserMessage, String.append_assoc]

theorem buildUserMessage_head (d fr crText : String) :
    buildUserMessage "staged files" d fr crText =
      "write me a commit message for the staged files, do not commit\n\nGit diff:\n" ++
        (d ++ ("\n\n" ++ (fr ++ (crText ++
          "\n- Do not wrap the response in code blocks or backticks\n- Return plain text only")))) := by
  have hA : ("write me a commit message for the " ++ "staged files" ++
        ", do not commit\n\nGit diff:\n" : String) =
      "write me a commit message for the staged files, do not commit\n\nGit diff:\n" := by
    decide
  rw [← hA]
  simp only [buildUserMessage, String.append_assoc]

/-- C3: the user message is built by concatenation in the exact order
instruction line, blank line, Git diff header, diff text verbatim, blank
line, format-rule block, custom-rules block, the two fixed constraint
lines; for a staged diff its first line is the fixed staged instruction
and the diff text occurs in it as an exact substring. -/
theorem userMessage_structure (fileType diff formatRules crText : String) :
    buildUserMessage fileType diff formatRules crText =
      "write me a commit message for the " ++ fileType ++ ", do not commit" ++ "\n\n" ++
        "Git diff:" ++ "\n" ++ diff ++ "\n\n" ++ formatRules ++ crText ++
        "\n- Do not wrap the response in code blocks or backticks\n- Return plain text only" ∧
    firstLine (buildUserMessage "staged files" diff formatRules crText) =
      "write me a commit message for the staged files, do not commit" ∧
    ∃ p q, buildUserMessage "staged files" diff formatRules crText = p ++ diff ++ q := by
  refine ⟨?_, ?_, buildUserMessage_contains_diff "staged files" diff formatRules crText⟩
  · have h1 : (", do not commit\n\nGit diff:\n" : String) =
        ", do not commit" ++ "\n\n" ++ "Git diff:" ++ "\n" := by decide
    simp only [buildUserMessage, h1, String.append_assoc]
  · rw [buildUserMessage_head, firstLine_append_of_newline]
    · decide
    · decide

/-- C8: for a non-empty customRules list the user message contains a block
made of a blank line, the header line `Additional custom rules:` and one
`- `-bulleted line per rule in input order joined by newlines; for an empty
list the block is the empty string. -/
theorem customRules_block (rs : List String) (ft d fr : String) :
    (rs = [] → customRulesText rs = "") ∧
    (rs ≠ [] →
      customRulesText rs =
        "\n" ++ "\n" ++ "Additional custom rules:" ++ "\n" ++
          String.intercalate "\n" (rs.map (fun rule => "- " ++ rule)) ∧
      ∃ p q, buildUserMessage ft d fr (customRulesText rs) =
        p ++ ("\n\nAdditional custom rules:\n" ++
          String.intercalate "\n" (rs.map (fun rule => "- " ++ rule))) ++ q) := by
  constructor
  · intro h
    simp [customRulesText, h]
  · intro h
    have hl : 0 < rs.length := List.length_pos.mpr h
    have hblock : customRulesText rs =
        "\n\nAdditional custom rules:\n" ++
          String.intercalate "\n" (rs.map (fun rule => "- " ++ rule)) := by
      simp [customRulesText, hl]
    constructor
    · rw [hblock]
      have hsplit : ("\n\nAdditional custom rules:\n" : String) =
          "\n" ++ "\n" ++ "Additional custom rules:" ++ "\n" := by decide
      rw [hsplit]
    · refine ⟨"write me a commit message for the " ++ ft ++ ", do not commit\n\nGit diff:\n" ++
          d ++ "\n\n" ++ fr,
        "\n- Do not wrap the response in code blocks or backticks\n- Return plain text only", ?_⟩
      rw [hblock]
      simp only [buildUserMessage, String.append_assoc]

theorem customRules_block_witness :
    customRulesText ["use present tense", "mention ticket id"] =
      "\n" ++ "\n" ++ "Additional custom rules:" ++ "\n" ++
        String.intercalate "\n"
          ((["use present tense", "mention ticket id"]).map (fun rule => "- " ++ rule)) :=
  ((customRules_block ["use present tense", "mention ticket id"] "staged files" "+d"
      "FR").2 (by decide)).1

theorem buildRequest_ok (env : GenEnv) (dr : DiffResult)
    (h : fetchDiff env.stagedDiff env.unstagedDiff = Except.ok dr) :
    buildRequest env = Except.ok
      { model := orDefaultString env.configModel "claude-4-sonnet",
        max_tokens := orDefaultInt env.configMaxTokens 200,
        messages := [{
          role := "user",
          content := buildUserMessage (if dr.staged then "staged files" else "changed files")
            dr.text
            (getFormatRules (orDefaultString env.configCommitFormat "conventional")
              (orDefaultString env.configCustomTemplate ""))
            (customRulesText (orEmptyList env.configCustomRules)) }],
        system := systemPreamble } := by
  simp [buildRequest, h, Bind.bind, Except.bind, Pure.pure, Except.pure]

theorem buildRequest_error (env : GenEnv) (m : String)
    (h : fetchDiff env.stagedDiff env.unstagedDiff = Except.error m) :
    buildRequest env = Except.error m := by
  simp [buildRequest, h, Bind.bind, Except.bind]

theorem body_of_response (env : GenEnv) (req : ApiRequest) (content : List RespBlock)
    (h1 : buildRequest env = Except.ok req)
    (h2 : env.apiResponse req = Except.ok content) :
    generateCommitMessageBody env = Except.ok (extractMessage content) := by
  simp [generateCommitMessageBody, h1, h2, Bind.bind, Except.bind, Pure.pure, Except.pure]

theorem body_error (env : GenEnv) (m : String)
    (h : buildRequest env = Except.error m) :
    generateCommitMessageBody env = Except.error m := by
  simp [generateCommitMessageBody, h, Bind.bind, Except.bind]

/-- C4: every error of generateCommitMessage is the single top-level wrap
of the inner error, its message being the fixed prefix
`Failed to generate commit message: ` followed by the original message; in
particular when both diffs are empty the result is an error whose message
contains `No changes found`. -/
theorem generationError_wrapping (env : GenEnv) :
    (∀ r, generateCommitMessage env = Except.error r →
      ∃ m, generateCommitMessageBody env = Except.error m ∧
        r = "Failed to generate commit message: " ++ m) ∧
    (∀ s u, env.stagedDiff = Except.ok s → (jsTrim s).isEmpty = true →
      env.unstagedDiff = Except.ok u → (jsTrim u).isEmpty = true →
      generateCommitMessage env =
        Except.error
          "Failed to generate commit message: No changes found (staged or unstaged)" ∧
      ∃ p q,
        ("Failed to generate commit message: No changes found (staged or unstaged)" : String) =
          p ++ "No changes found" ++ q) := by
  constructor
  · intro r hr
    cases hbody : generateCommitMessageBody env with
    | ok s => simp [generateCommitMessage, hbody] at hr
    | error m =>
      simp [generateCommitMessage, hbody] at hr
      exact ⟨m, rfl, hr.symm⟩
  · intro s u hs hst hu hut
    have hfd : fetchDiff env.stagedDiff env.unstagedDiff =
        Except.error "No changes found (staged or unstaged)" := by
      rw [hs, hu]
      exact fetchDiff_noChanges s u hst hut
    have hb : generateCommitMessageBody env =
        Except.error "No changes found (staged or unstaged)" :=
      body_error env _ (buildRequest_error env _ hfd)
    have hfull : generateCommitMessage env =
        Except.error ("Failed to generate commit message: " ++
          "No changes found (staged or unstaged)") := by
      simp [generateCommitMessage, hb]
    have hlit : ("Failed to generate commit message: " ++
        "No changes found (staged or unstaged)" : String) =
        "Failed to generate commit message: No changes found (staged or unstaged)" := by
      decide
    rw [hlit] at hfull
    exact ⟨hfull, "Failed to generate commit message: ", " (staged or unstaged)", by decide⟩

theorem generationError_wrapping_witness :
    generateCommitMessage
      { configModel := none, configMaxTokens := none, configCustomRules := none,
        configCommitFormat := none, configCustomTemplate := none,
        stagedDiff := Except.ok " ", unstagedDiff := Except.ok "\t\n",
        apiResponse := fun _ => Except.ok [] } =
      Except.error "Failed to generate commit message: No changes found (staged or unstaged)" :=
  ((generationError_wrapping
      { configModel := none, configMaxTokens := none, configCustomRules := none,
        configCommitFormat := none, configCustomTemplate := none,
        stagedDiff := Except.ok " ", unstagedDiff := Except.ok "\t\n",
        apiResponse := fun _ => Except.ok [] }).2
    " " "\t\n" rfl (by decide) rfl (by decide)).1

theorem extract_of_no_text (content : List RespBlock)
    (h : ∀ b ∈ content, b.type ≠ "text") :
    extractMessage content = "Unable to generate commit message" := by
  have hn : content.find? (fun block => block.type == "text") = none := by
    rw [List.find?_eq_none]
    intro x hx
    simp [h x hx]
  simp [extractMessage, hn]

theorem extract_of_first_text (pre : List RespBlock) (b : RespBlock) (post : List RespBlock)
    (hb : b.type = "text") (hpre : ∀ x ∈ pre, x.type ≠ "text") :
    extractMessage (pre ++ b :: post) = b.text := by
  have h1 : pre.find? (fun block => block.type == "text") = none := by
    rw [List.find?_eq_none]
    intro x hx
    simp [hpre x hx]
  simp [extractMessage, List.find?_append, h1, hb]

/-- C7: when the completion API responds with content containing no block
of type text, generateCommitMessage resolves (is an ok value, not an
error) to the literal fallback string; otherwise it resolves to the text
of the first text-typed block. -/
theorem extraction_spec (env : GenEnv) (content : List RespBlock)
    (hok : (buildRequest env).isOk = true)
    (hapi : ∀ req, buildRequest env = Except.ok req →
      env.apiResponse req = Except.ok content) :
    ((∀ b ∈ content, b.type ≠ "text") →
      generateCommitMessage env = Except.ok "Unable to generate commit message") ∧
    (∀ pre b post, content = pre ++ b :: post → b.type = "text" →
      (∀ x ∈ pre, x.type ≠ "text") →
      generateCommitMessage env = Except.ok b.text) := by
  have hreq : ∃ req, buildRequest env = Except.ok req := by
    cases hbr : buildRequest env with
    | ok req => exact ⟨req, rfl⟩
    | error m => rw [hbr] at hok; simp [Except.isOk, Except.toBool] at hok
  obtain ⟨req, hreq⟩ := hreq
  have hbody : generateCommitMessageBody env = Except.ok (extractMessage content) :=
    body_of_response env req content hreq (hapi req hreq)
  constructor
  · intro h
    simp [generateCommitMessage, hbody, extract_of_no_text content h]
  · intro pre b post hc hb hpre
    subst hc
    simp [generateCommitMessage, hbody, extract_of_first_text pre b post hb hpre]

theorem extraction_spec_witness :
    generateCommitMessage
      { configModel := none, configMaxTokens := none, configCustomRules := none,
        configCommitFormat := none, configCustomTemplate := none,
        stagedDiff := Except.ok "+x", unstagedDiff := Except.ok "",
        apiResponse := fun _ => Except.ok [{ type := "tool_use", text := "ignored" }] } =
      Except.ok "Unable to generate commit message" :=
  (extraction_spec
      { configModel := none, configMaxTokens := none, configCustomRules := none,
        configCommitFormat := none, configCustomTemplate := none,
        stagedDiff := Except.ok "+x", unstagedDiff := Except.ok "",
        apiResponse := fun _ => Except.ok [{ type := "tool_use", text := "ignored" }] }
      [{ type := "tool_use", text := "ignored" }]
      (by decide) (fun req _ => rfl)).1 (by decide)

/-- C10: the diff text embedded in the user message sent to the API is the
raw, untrimmed stdout of the selected git command — trimming is only used
for the emptiness tests — so leading and trailing whitespace of the chosen
diff reaches the prompt verbatim. -/
theorem diff_untrimmed (env : GenEnv) :
    (∀ s, env.stagedDiff = Except.ok s → (jsTrim s).isEmpty = false →
      sentUserMessage env = Except.ok (buildUserMessage "staged files" s
        (getFormatRules (orDefaultString env.configCommitFormat "conventional")
          (orDefaultString env.configCustomTemplate ""))
        (customRulesText (orEmptyList env.configCustomRules))) ∧
      (∃ p q, sentUserMessage env = Except.ok (p ++ s ++ q))) ∧
    (∀ s u, env.stagedDiff = Except.ok s → (jsTrim s).isEmpty = true →
      env.unstagedDiff = Except.ok u → (jsTrim u).isEmpty = false →
      sentUserMessage env = Except.ok (buildUserMessage "changed files" u
        (getFormatRules (orDefaultString env.configCommitFormat "conventional")
          (orDefaultString env.configCustomTemplate ""))
        (customRulesText (orEmptyList env.configCustomRules))) ∧
      (∃ p q, sentUserMessage env = Except.ok (p ++ u ++ q))) := by
  constructor
  · intro s hs hst
    have hfd : fetchDiff env.stagedDiff env.unstagedDiff =
        Except.ok { text := s, staged := true } := by
      rw [hs]
      exact fetchDiff_staged s env.unstagedDiff hst
    have hmsg : sentUserMessage env = Except.ok (buildUserMessage "staged files" s
        (getFormatRules (orDefaultString env.configCommitFormat "conventional")
          (orDefaultString env.configCustomTemplate ""))
        (customRulesText (orEmptyList env.configCustomRules))) := by
      simp [sentUserMessage, buildRequest_ok env _ hfd, Except.map]
    obtain ⟨p, q, hpq⟩ := buildUserMessage_contains_diff "staged files" s
      (getFormatRules (orDefaultString env.configCommitFormat "conventional")
        (orDefaultString env.configCustomTemplate ""))
      (customRulesText (orEmptyList env.configCustomRules))
    exact ⟨hmsg, p, q, by rw [hmsg, hpq]⟩
  · intro s u hs hst hu hut
    have hfd : fetchDiff env.stagedDiff env.unstagedDiff =
        Except.ok { text := u, staged := false } := by
      rw [hs, hu]
      exact fetchDiff_fallback s u hst hut
    have hmsg : sentUserMessage env = Except.ok (buildUserMessage "changed files" u
        (getFormatRules (orDefaultString env.configCommitFormat "conventional")
          (orDefaultString env.configCustomTemplate ""))
        (customRulesText (orEmptyList env.configCustomRules))) := by
      simp [sentUserMessage, buildRequest_ok env _ hfd, Except.map]
    obtain ⟨p, q, hpq⟩ := buildUserMessage_contains_diff "changed files" u
      (getFormatRules (orDefaultString env.configCommitFormat "conventional")
        (orDefaultString env.configCustomTemplate ""))
      (customRulesText (orEmptyList env.configCustomRules))
    exact ⟨hmsg, p, q, by rw [hmsg, hpq]⟩

theorem diff_untrimmed_witness :
    sentUserMessage
      { configModel := none, configMaxTokens := none, configCustomRules := none,
        configCommitFormat := none, configCustomTemplate := none,
        stagedDiff := Except.ok "  \ndiff --git a/x b/x\n+foo\n  ",
        unstagedDiff := Except.ok "",
        apiResponse := fun _ => Except.ok [] } =
      Except.ok (buildUserMessage "staged files" "  \ndiff --git a/x b/x\n+foo\n  "
        (getFormatRules "conventional" "") (customRulesText [])) :=
  ((diff_untrimmed
      { configModel := none, configMaxTokens := none, configCustomRules := none,
        configCommitFormat := none, configCustomTemplate := none,
        stagedDiff := Except.ok "  \ndiff --git a/x b/x\n+foo\n  ",
        unstagedDiff := Except.ok "",
        apiResponse := fun _ => Except.ok [] }).1
    "  \ndiff --git a/x b/x\n+foo\n  " rfl (by decide)).1
